import Mathlib

/-!
Verification of the AxumSession session-store engine (`src/session.rs`).

Shallow embedding conventions:
* `Uuid` is modelled as `Nat` (a 128-bit random value); its canonical string
  rendering `Uuid::to_string` is modelled by `Nat.repr`, and `Uuid::parse_str`
  is kept abstract (a `String → Option Nat` parameter) where it occurs.
* The random draws of `Uuid::new_v4` inside the generation loop are
  externalised as a list of candidate tokens; running out of the list models
  "the loop is still running after that many iterations".
* The concurrent cache `store.inner` (a map keyed by the ID's canonical
  string) is modelled as an association list with `alookup` / `upsert` /
  `aremove`.
* The async persistence client (`DatabasePool`) is modelled as a record of
  functions; `client.exists` returning `Result<bool, _>` becomes
  `existsCheck : String → String → Except IOError Bool`.
* Methods taking `&self` and mutating shared state behind the store's
  interior mutability are modelled functionally: they return the updated
  store (or handle) value.
-/

/-- Error type of the persistence backend (`DatabasePool` failures). -/
structure IOError where
  msg : String
deriving DecidableEq

/-- Embeds `SessionID` from `src/session.rs`: a newtype over `Uuid`
(modelled as `Nat`), with accessor `inner`. -/
structure SessionID where
  inner : Nat
deriving DecidableEq

/-- Embeds the `SessionData` record of the session store (spec §3): keyed
entries of serialized values, expiry timestamp and lifecycle flags. -/
structure SessionData where
  entries : List (String × String)
  expiry : Nat
  longterm : Bool
  storable : Bool
  pending_destroy : Bool
deriving DecidableEq

/-- Embeds `SessionConfig`: the configuration surface consumed by the store
(spec §6). `key` is the optional cookie-signing key material; signing itself
is out of scope of the core. Lifespans are in the same time unit as
`SessionData.expiry`. -/
structure SessionConfig where
  cookie_name : String
  table_name : String
  key : Option String
  default_lifespan : Nat
  longterm_lifespan : Nat

/-- Embeds the persistence client (`DatabasePool`, spec §6
PersistenceCapability) as a record of functions. `existsCheck` embeds
`exists(id, table) -> Result<bool, _>`; `dbCount` embeds
`count(table) -> integer` (its failure mode is not exercised by any claim,
so it is modelled total). -/
structure Client where
  existsCheck : String → String → Except IOError Bool
  dbCount : String → Int

/-- Embeds `SessionStore`: the in-memory cache `inner` keyed by the ID's
canonical string, the optional persistence `client`, and the `config`. -/
structure SessionStore where
  inner : List (String × SessionData)
  client : Option Client
  config : SessionConfig

/-- Embeds `Session<T>` from `src/session.rs`: a handle holding the shared
store and the `SessionID` of the current session. -/
structure Session where
  store : SessionStore
  id : SessionID

/-- Association-list lookup, modelling map lookup / `contains_key` on the
store's concurrent map. -/
def alookup (k : String) : List (String × β) → Option β
  | [] => none
  | (k2, v2) :: rest => if k2 == k then some v2 else alookup k rest

/-- Association-list insert-or-overwrite, modelling map insertion. -/
def upsert (k : String) (v : β) : List (String × β) → List (String × β)
  | [] => [(k, v)]
  | (k2, v2) :: rest => if k2 == k then (k, v) :: rest else (k2, v2) :: upsert k v rest

/-- Association-list key removal, modelling map removal (a map has at most
one binding per key, so removal is modelled as dropping every binding). -/
def aremove (k : String) (l : List (String × β)) : List (String × β) :=
  l.filter (fun p => !(p.1 == k))

/-- Outcome of one run of the `generate_uuid` loop on a finite list of
random draws: `ok` models `return SessionID(token)`; `panicked` models the
`.unwrap()` panic on a persistence error; `exhausted` means the loop was
still running after consuming every modelled draw. -/
inductive GenOutcome where
  | ok (id : SessionID)
  | panicked
  | exhausted
deriving DecidableEq

/-- Embeds `Session::generate_uuid` (src/session.rs lines 67-88): draw a
token; if the cache contains its string, retry; otherwise, when a client is
configured, `exists` is consulted — an error panics (`.unwrap()`), `true`
retries, `false` returns the token; with no client the token is returned
directly. -/
def generate_uuid (store : SessionStore) : List Nat → GenOutcome
  | [] => .exhausted
  | t :: rest =>
    if (alookup (Nat.repr t) store.inner).isSome then
      generate_uuid store rest
    else
      match store.client with
      | some client =>
        match client.existsCheck (Nat.repr t) store.config.table_name with
        | .error _ => .panicked
        | .ok true => generate_uuid store rest
        | .ok false => .ok ⟨t⟩
      | none => .ok ⟨t⟩

/-- A sample configuration for concrete evaluations. -/
def cfgA : SessionConfig :=
  { cookie_name := "session", table_name := "sessions_table", key := none,
    default_lifespan := 100, longterm_lifespan := 1000 }

/-- A sample session-data record for concrete evaluations. -/
def dataA : SessionData :=
  { entries := [("k", "v")], expiry := 50, longterm := false, storable := false,
    pending_destroy := false }

/-- Concrete store for evaluating C1: ID "1" is live in the cache, and the
persistence backend reports ID "2" (and only it) as present. -/
def storeC1 : SessionStore :=
  { inner := [("1", dataA)],
    client := some { existsCheck := fun s _ => Except.ok (s == "2"), dbCount := fun _ => 5 },
    config := cfgA }

/-- Concrete store for evaluating C2: the persistence existence check always
fails with a connectivity error. -/
def storeC2 : SessionStore :=
  { inner := [],
    client := some { existsCheck := fun _ _ => Except.error ⟨"connection refused"⟩,
                     dbCount := fun _ => 0 },
    config := cfgA }

/-- Concrete store for evaluating C3: the cache is empty but the persistence
backend reports every candidate ID as already present. -/
def storeC3 : SessionStore :=
  { inner := [],
    client := some { existsCheck := fun _ _ => Except.ok true, dbCount := fun _ => 0 },
    config := cfgA }

/-- Concrete store for evaluating the amended C3: ID "5" is live in the
cache and the persistence backend reports every candidate as absent. -/
def storeC3b : SessionStore :=
  { inner := [("5", dataA)],
    client := some { existsCheck := fun _ _ => Except.ok false, dbCount := fun _ => 0 },
    config := cfgA }

/-- Embeds the cookie jar presented with a request: the (already
verified/decrypted) cookie values by cookie name. Cookie parsing, signing
and encryption are out of scope of the core (spec §1). -/
structure CookieJar where
  jar : List (String × String)

/-- Modelled from the spec: `CookiesExt::get_cookie` (not under src/) —
returns the value of the named cookie from the jar. The `key` argument is
the signing key material; signing is out of scope, so the jar holds
already-verified values and `key` does not affect the lookup. -/
def CookieJar.get_cookie (cookies : CookieJar) (name : String) (key : Option String) :
    Option String :=
  alookup name cookies.jar

/-- The candidate session ID of `Session::new` (src/session.rs lines 52-54):
the configured cookie's value, parsed by `Uuid::parse_str` (kept abstract as
the `parse` parameter), with parse failure mapped to `none`. -/
def cookieCandidate (parse : String → Option Nat) (store : SessionStore)
    (cookies : CookieJar) : Option Nat :=
  (cookies.get_cookie store.config.cookie_name store.config.key).bind parse

/-- Embeds `Session::new` (src/session.rs lines 51-65): bind to the parsed
cookie candidate when present, otherwise to a freshly generated ID; `none`
models the generation loop not resolving within the modelled draws. -/
def Session.new (parse : String → Option Nat) (store : SessionStore)
    (cookies : CookieJar) (tokens : List Nat) : Option Session :=
  match cookieCandidate parse store cookies with
  | some v => some { store := store, id := ⟨v⟩ }
  | none =>
    match generate_uuid store tokens with
    | .ok id => some { store := store, id := id }
    | _ => none

/-- Modelled from the spec: the empty `SessionData` created the first time
an absent ID is touched (spec §3 lifecycle), with the default lifespan from
"now". -/
def SessionData.create (cfg : SessionConfig) (now : Nat) : SessionData :=
  { entries := [], expiry := now + cfg.default_lifespan, longterm := false,
    storable := false, pending_destroy := false }

/-- The entries of the session bound to `id`: an absent ID behaves as a
freshly created empty session (spec §4.3). -/
def entriesOf (store : SessionStore) (id : Nat) : List (String × String) :=
  match alookup (Nat.repr id) store.inner with
  | some data => data.entries
  | none => []

/-- Modelled from the spec: `SessionStore::get` (the store method behind
`Session::get`, not under src/) — look up the key in the session's entries
and attempt to decode; a missing key or a decode failure yields `none`. -/
def SessionStore.get (store : SessionStore) (id : Nat) (key : String)
    (decode : String → Option α) : Option α :=
  (alookup key (entriesOf store id)).bind decode

/-- Modelled from the spec: `SessionStore::set` (not under src/) — encode
the value and insert/overwrite it under the key, creating the session's
data first when absent. -/
def SessionStore.set (store : SessionStore) (now : Nat) (id : Nat) (key : String)
    (encode : α → String) (v : α) : SessionStore :=
  let data := (alookup (Nat.repr id) store.inner).getD (SessionData.create store.config now)
  let data2 := { data with entries := upsert key (encode v) data.entries }
  { store with inner := upsert (Nat.repr id) data2 store.inner }

/-- Modelled from the spec: `SessionStore::get_remove` (not under src/) —
the atomic compound of get and remove on one snapshot: the decoded value
(with get's absence semantics) together with the store in which the key's
binding has been removed. -/
def SessionStore.get_remove (store : SessionStore) (now : Nat) (id : Nat) (key : String)
    (decode : String → Option α) : Option α × SessionStore :=
  let data := (alookup (Nat.repr id) store.inner).getD (SessionData.create store.config now)
  let r := (alookup key data.entries).bind decode
  let data2 := { data with entries := aremove key data.entries }
  (r, { store with inner := upsert (Nat.repr id) data2 store.inner })

/-- Modelled from the spec: `SessionStore::remove` (not under src/) —
delete the key if present; no effect when the session or key is absent. -/
def SessionStore.remove (store : SessionStore) (id : Nat) (key : String) : SessionStore :=
  match alookup (Nat.repr id) store.inner with
  | some data =>
    { store with
      inner := upsert (Nat.repr id) { data with entries := aremove key data.entries } store.inner }
  | none => store

/-- Modelled from the spec: `SessionStore::clear_session_data` (not under
src/) — remove all entries for the id, leaving lifecycle flags and expiry
untouched. -/
def SessionStore.clear_session_data (store : SessionStore) (id : Nat) : SessionStore :=
  match alookup (Nat.repr id) store.inner with
  | some data =>
    { store with inner := upsert (Nat.repr id) { data with entries := [] } store.inner }
  | none => store

/-- Modelled from the spec: `SessionStore::destroy` (not under src/) — mark
the session `pending_destroy`; actual removal happens on the next
reconciliation. -/
def SessionStore.destroy (store : SessionStore) (id : Nat) : SessionStore :=
  match alookup (Nat.repr id) store.inner with
  | some data =>
    { store with inner := upsert (Nat.repr id) { data with pending_destroy := true } store.inner }
  | none => store

/-- Modelled from the spec: `SessionStore::set_longterm` (not under src/) —
toggle `longterm` and recompute the expiry from "now" with the matching
configured lifespan. -/
def SessionStore.set_longterm (store : SessionStore) (now : Nat) (id : Nat)
    (longterm : Bool) : SessionStore :=
  match alookup (Nat.repr id) store.inner with
  | some data =>
    { store with
      inner :=
        upsert (Nat.repr id)
          { data with
            longterm := longterm,
            expiry := now +
              (if longterm then store.config.longterm_lifespan
               else store.config.default_lifespan) }
          store.inner }
  | none => store

/-- Modelled from the spec: `SessionStore::set_store` (not under src/) —
toggle `storable`; the deletion of a previously persisted record is a
backend side effect outside the modelled state. -/
def SessionStore.set_store (store : SessionStore) (id : Nat) (storable : Bool) : SessionStore :=
  match alookup (Nat.repr id) store.inner with
  | some data =>
    { store with inner := upsert (Nat.repr id) { data with storable := storable } store.inner }
  | none => store

/-- Modelled from the spec: `SessionStore::renew` (not under src/) —
allocate a fresh ID via the generation loop and move the session's data
from the old ID to the new one; deletion of the old persisted record is a
backend side effect outside the modelled state. Unchanged when generation
does not resolve or the old ID is absent. -/
def SessionStore.renew (store : SessionStore) (old : Nat) (tokens : List Nat) : SessionStore :=
  match generate_uuid store tokens with
  | .ok newId =>
    match alookup (Nat.repr old) store.inner with
    | some data =>
      { store with
        inner := upsert (Nat.repr newId.inner) data (aremove (Nat.repr old) store.inner) }
    | none => store
  | _ => store

/-- The number of live (non-expired, non-pending-destroy) entries in the
in-memory cache (spec §4.5). -/
def liveCount (store : SessionStore) (now : Nat) : Int :=
  ((store.inner.filter (fun p => decide (now ≤ p.2.expiry) && !p.2.pending_destroy)).length : Int)

/-- Modelled from the spec: `SessionStore::count_sessions` (not under
src/) — the persistence backend's count for the configured table when a
client is configured, otherwise the number of live cache entries. -/
def SessionStore.count_sessions (store : SessionStore) (now : Nat) : Int :=
  match store.client with
  | some client => client.dbCount store.config.table_name
  | none => liveCount store now

/-- Embeds `Session::renew` (src/session.rs lines 100-103): forwards to the
store with the handle's own id; the handle value itself keeps its fields
(the store is shared, so the handle carries the updated store value). -/
def Session.renew (s : Session) (tokens : List Nat) : Session :=
  { s with store := SessionStore.renew s.store s.id.inner tokens }

/-- Embeds `Session::destroy` (src/session.rs lines 112-115). -/
def Session.destroy (s : Session) : Session :=
  { s with store := SessionStore.destroy s.store s.id.inner }

/-- Embeds `Session::set_longterm` (src/session.rs lines 124-127). -/
def Session.set_longterm (s : Session) (now : Nat) (longterm : Bool) : Session :=
  { s with store := SessionStore.set_longterm s.store now s.id.inner longterm }

/-- Embeds `Session::set_store` (src/session.rs lines 139-142). -/
def Session.set_store (s : Session) (storable : Bool) : Session :=
  { s with store := SessionStore.set_store s.store s.id.inner storable }

/-- Embeds `Session::get` (src/session.rs lines 156-159): forwards to
`SessionStore::get` with the handle's id. -/
def Session.get (s : Session) (key : String) (decode : String → Option α) : Option α :=
  SessionStore.get s.store s.id.inner key decode

/-- Embeds `Session::get_remove` (src/session.rs lines 173-176). -/
def Session.get_remove (s : Session) (now : Nat) (key : String)
    (decode : String → Option α) : Option α × Session :=
  let p := SessionStore.get_remove s.store now s.id.inner key decode
  (p.1, { s with store := p.2 })

/-- Embeds `Session::set` (src/session.rs lines 185-188). -/
def Session.set (s : Session) (now : Nat) (key : String) (encode : α → String) (v : α) :
    Session :=
  { s with store := SessionStore.set s.store now s.id.inner key encode v }

/-- Embeds `Session::remove` (src/session.rs lines 198-201). -/
def Session.remove (s : Session) (key : String) : Session :=
  { s with store := SessionStore.remove s.store s.id.inner key }

/-- Embeds `Session::clear` (src/session.rs lines 210-213). -/
def Session.clear (s : Session) : Session :=
  { s with store := SessionStore.clear_session_data s.store s.id.inner }

/-- Embeds `Session::count` (src/session.rs lines 225-228): forwards to
`SessionStore::count_sessions`. -/
def Session.count (s : Session) (now : Nat) : Int :=
  SessionStore.count_sessions s.store now

/-- Embeds `Session::get_session_id` (src/session.rs lines 239-242):
returns the handle's own id. -/
def Session.get_session_id (s : Session) : SessionID :=
  s.id

/-- Embeds `ReadOnlySession<T>` (src/session.rs lines 245-252). -/
structure ReadOnlySession where
  store : SessionStore
  id : SessionID

/-- Embeds the conversion impl of `From Session for ReadOnlySession`
(src/session.rs lines 254-264): both fields are carried over unchanged. -/
def ReadOnlySession.ofSession (s : Session) : ReadOnlySession :=
  { store := s.store, id := s.id }

/-- Embeds `ReadOnlySession::get` (src/session.rs lines 303-306). -/
def ReadOnlySession.get (s : ReadOnlySession) (key : String)
    (decode : String → Option α) : Option α :=
  SessionStore.get s.store s.id.inner key decode

/-- Embeds `ReadOnlySession::count` (src/session.rs lines 318-321). -/
def ReadOnlySession.count (s : ReadOnlySession) (now : Nat) : Int :=
  SessionStore.count_sessions s.store now

/-- A concrete stand-in for `Uuid::parse_str` in evaluations: accepts
exactly the canonical rendering of 42. -/
def parse42 : String → Option Nat :=
  fun s => if s == "42" then some 42 else none

/-- A cookie jar presenting candidate ID 42 under the configured cookie
name. -/
def jarC4 : CookieJar :=
  { jar := [("session", "42")] }

/-- Concrete store for evaluating C4: ID "42" is already live in the cache
and the persistence client errors on every existence check — so any
existence verification during resolution would be observable. -/
def storeC4 : SessionStore :=
  { inner := [("42", dataA)],
    client := some { existsCheck := fun _ _ => Except.error ⟨"offline"⟩, dbCount := fun _ => 0 },
    config := cfgA }

/-- A concrete decoder for evaluations: decodes exactly the string "7" to
the number 7 and fails on everything else. -/
def dec7 : String → Option Nat :=
  fun s => if s == "7" then some 7 else none

/-- Session data for evaluating C5: one entry `dec7` can decode and one it
cannot. -/
def dataC5 : SessionData :=
  { entries := [("good", "7"), ("bad", "x")], expiry := 50, longterm := false,
    storable := false, pending_destroy := false }

/-- Concrete handle for evaluating C5, bound to ID 1. -/
def sessC5 : Session :=
  { store := { inner := [("1", dataC5)], client := none, config := cfgA }, id := ⟨1⟩ }

/-- Concrete handle over an empty in-memory store, for evaluating C6 and
C7. -/
def sessC6 : Session :=
  { store := { inner := [], client := none, config := cfgA }, id := ⟨1⟩ }

/-- Concrete store for evaluating C8 without persistence: one live entry,
one expired entry and one entry pending destruction (at time 40). -/
def storeC8a : SessionStore :=
  { inner :=
      [("1", dataA), ("2", { dataA with expiry := 10 }),
       ("3", { dataA with pending_destroy := true })],
    client := none, config := cfgA }

/-- Concrete handle over `storeC8a`. -/
def sessC8a : Session :=
  { store := storeC8a, id := ⟨1⟩ }

/-- Concrete persistence client for evaluating C8: reports 12 persisted
sessions. -/
def clientC8 : Client :=
  { existsCheck := fun _ _ => Except.ok false, dbCount := fun _ => 12 }

/-- Concrete handle over a store with `clientC8` configured, for evaluating
C8 with persistence. -/
def sessC8b : Session :=
  { store := { inner := [("1", dataA)], client := some clientC8, config := cfgA }, id := ⟨1⟩ }

/-- Claim C1: an ID returned by `generate_uuid` is absent from the in-memory
cache, and, when a persistence client is configured, the client's existence
check reported it absent; an ID either check reported present is never
returned. -/
theorem generate_uuid_fresh (store : SessionStore) (tokens : List Nat) (id : SessionID)
    (h : generate_uuid store tokens = GenOutcome.ok id) :
    alookup (Nat.repr id.inner) store.inner = none ∧
      ∀ client, store.client = some client →
        client.existsCheck (Nat.repr id.inner) store.config.table_name = Except.ok false := by
  induction tokens with
  | nil => simp [generate_uuid] at h
  | cons t rest ih =>
    rw [generate_uuid] at h
    split at h
    · exact ih h
    · rename_i hc
      split at h
      · rename_i client hcl
        split at h
        · cases h
        · exact ih h
        · rename_i hex
          cases h
          refine ⟨Option.not_isSome_iff_eq_none.mp hc, ?_⟩
          intro c hc2
          rw [hcl] at hc2
          cases hc2
          exact hex
      · rename_i hcl
        cases h
        refine ⟨Option.not_isSome_iff_eq_none.mp hc, ?_⟩
        intro c hc2
        rw [hcl] at hc2
        cases hc2

/-- Witness for C1: on `storeC1` with draws 1 (live in cache), 2 (reported
present by the backend) and 3 (fresh), the generator returns ID 3, and both
freshness facts hold for it. -/
theorem generate_uuid_fresh_witness :
    alookup (Nat.repr 3) storeC1.inner = none ∧
      ∀ client, storeC1.client = some client →
        client.existsCheck (Nat.repr 3) storeC1.config.table_name = Except.ok false :=
  generate_uuid_fresh storeC1 [1, 2, 3] ⟨3⟩ (by decide)

/-- Counterexample for C2: on `storeC2`, whose existence check reports a
connectivity error, `generate_uuid` panics (the source calls `.unwrap()` on
the check's result); it does not abort with an error value. -/
theorem generate_uuid_db_error_cex :
    generate_uuid storeC2 [7] = GenOutcome.panicked := by decide

/-- Claim C2 (amended): when the cache misses a candidate token and the
persistence existence check returns an error for it, `generate_uuid` panics
(the deliberate `.unwrap()` crash) instead of returning an error value; in
particular it never returns an ID whose check errored. -/
theorem generate_uuid_db_error_panics (store : SessionStore) (client : Client)
    (t : Nat) (rest : List Nat)
    (h1 : store.client = some client)
    (h2 : alookup (Nat.repr t) store.inner = none)
    (h3 : ∃ e, client.existsCheck (Nat.repr t) store.config.table_name = Except.error e) :
    generate_uuid store (t :: rest) = GenOutcome.panicked := by
  obtain ⟨e, he⟩ := h3
  rw [generate_uuid, h2]
  simp [h1, he]

/-- Witness for the amended C2 at a concrete store and draw. -/
theorem generate_uuid_db_error_panics_witness :
    generate_uuid storeC2 [9, 10] = GenOutcome.panicked :=
  generate_uuid_db_error_panics storeC2
    { existsCheck := fun _ _ => Except.error ⟨"connection refused"⟩, dbCount := fun _ => 0 }
    9 [10] rfl rfl ⟨⟨"connection refused"⟩, rfl⟩

/-- On `storeC3` every candidate is rejected, so the generation loop is
still running after any finite number of draws. -/
theorem generate_uuid_storeC3_loops (tokens : List Nat) :
    generate_uuid storeC3 tokens = GenOutcome.exhausted := by
  induction tokens with
  | nil => rfl
  | cons t rest ih =>
    rw [generate_uuid]
    simpa [storeC3, alookup] using ih

/-- Counterexample for C3: on `storeC3` (a malfunctioning backend reporting
every candidate as present) no finite number of loop iterations produces any
outcome — neither a fresh ID nor a DuplicateIDExhaustion-style error: the
source loop (`loop { ... }`, src/session.rs lines 68-87) has no maximum
retry count and loops forever. -/
theorem generate_uuid_unbounded_cex :
    ¬ ∃ tokens, generate_uuid storeC3 tokens ≠ GenOutcome.exhausted := by
  rintro ⟨tokens, h⟩
  exact h (generate_uuid_storeC3_loops tokens)

/-- Claim C3 (amended): the collision-avoidance loop is an unbounded
rejection-sampling loop with no retry cap and no error failure mode: it
returns as soon as a drawn candidate passes both checks (here, on the first
fresh draw), and on a store whose checks reject every candidate it never
terminates (see the counterexample). -/
theorem generate_uuid_first_fresh (store : SessionStore) (t : Nat) (rest : List Nat)
    (h1 : alookup (Nat.repr t) store.inner = none)
    (h2 : ∀ client, store.client = some client →
      client.existsCheck (Nat.repr t) store.config.table_name = Except.ok false) :
    generate_uuid store (t :: rest) = GenOutcome.ok ⟨t⟩ := by
  rw [generate_uuid, h1]
  cases hcl : store.client with
  | none => simp
  | some client => simp [h2 client hcl]

/-- Witness for the amended C3: on `storeC3b` the first draw 8 is fresh and
is returned at once. -/
theorem generate_uuid_first_fresh_witness :
    generate_uuid storeC3b [8, 9] = GenOutcome.ok ⟨8⟩ :=
  generate_uuid_first_fresh storeC3b 8 [9] (by decide)
    (by
      intro client hcl
      injection hcl with h
      rw [← h])

/-- Looking up a key right after inserting it yields the inserted value. -/
theorem alookup_upsert_self (k : String) (v : β) (l : List (String × β)) :
    alookup k (upsert k v l) = some v := by
  induction l with
  | nil => simp [upsert, alookup]
  | cons p rest ih =>
    obtain ⟨k2, v2⟩ := p
    by_cases h : (k2 == k) = true
    · simp [upsert, alookup, h]
    · simp [upsert, alookup, h, ih]

/-- Looking up a key right after removing it yields nothing. -/
theorem alookup_aremove_self (k : String) (l : List (String × β)) :
    alookup k (aremove k l) = none := by
  induction l with
  | nil => simp [aremove, alookup]
  | cons p rest ih =>
    obtain ⟨k2, v2⟩ := p
    by_cases h : (k2 == k) = true
    · simpa [aremove, h] using ih
    · simpa [aremove, alookup, h] using ih

/-- Claim C4: if the presented cookie candidate parses to `v`, `Session::new`
binds the session to `v` as-is — for every store state, so no existence
check against cache or persistence takes place; if no candidate is presented
or parsing fails, it binds to the ID produced by the generation loop. -/
theorem session_new_resolution (parse : String → Option Nat) (store : SessionStore)
    (cookies : CookieJar) (tokens : List Nat) :
    (∀ v, cookieCandidate parse store cookies = some v →
      Session.new parse store cookies tokens = some { store := store, id := ⟨v⟩ }) ∧
    (cookieCandidate parse store cookies = none →
      ∀ id, generate_uuid store tokens = GenOutcome.ok id →
        Session.new parse store cookies tokens = some { store := store, id := id }) := by
  constructor
  · intro v hv
    simp [Session.new, hv]
  · intro hn id hid
    simp [Session.new, hn, hid]

/-- Witness for C4: on `storeC4` — whose cache already holds ID "42" and
whose persistence client errors on every existence check — the presented
candidate 42 is bound as-is, untouched by either check. -/
theorem session_new_resolution_witness :
    Session.new parse42 storeC4 jarC4 [] = some { store := storeC4, id := ⟨42⟩ } :=
  (session_new_resolution parse42 storeC4 jarC4 []).1 42 (by decide)

/-- Claim C5: `Session::get` returns `none` both on a missing key and on a
decode failure (a decode mismatch is never a hard error), and returns the
decoded value on a successful decode. -/
theorem session_get_absence (s : Session) (key : String) (decode : String → Option α) :
    (alookup key (entriesOf s.store s.id.inner) = none → Session.get s key decode = none) ∧
    (∀ c, alookup key (entriesOf s.store s.id.inner) = some c → decode c = none →
      Session.get s key decode = none) ∧
    (∀ c v, alookup key (entriesOf s.store s.id.inner) = some c → decode c = some v →
      Session.get s key decode = some v) := by
  refine ⟨?_, ?_, ?_⟩ <;> intros <;> simp [Session.get, SessionStore.get, *]

/-- Witness for C5 on `sessC5`: a missing key and an undecodable value both
read as `none`; a decodable value is returned. -/
theorem session_get_absence_witness :
    Session.get sessC5 "missing" dec7 = none ∧
    Session.get sessC5 "bad" dec7 = none ∧
    Session.get sessC5 "good" dec7 = some 7 :=
  ⟨(session_get_absence sessC5 "missing" dec7).1 (by decide),
   (session_get_absence sessC5 "bad" dec7).2.1 "x" (by decide) (by decide),
   (session_get_absence sessC5 "good" dec7).2.2 "7" 7 (by decide) (by decide)⟩

/-- Claim C6: for every encodable value (one the codec round-trips),
`set` followed by `get` at the same requested type returns the original
value. -/
theorem session_set_get_roundtrip (s : Session) (now : Nat) (key : String)
    (encode : α → String) (decode : String → Option α) (v : α)
    (h : decode (encode v) = some v) :
    Session.get (Session.set s now key encode v) key decode = some v := by
  simp [Session.get, Session.set, SessionStore.get, SessionStore.set, entriesOf,
    alookup_upsert_self, h]

/-- Witness for C6: storing 7 under "n" and reading it back yields 7. -/
theorem session_set_get_roundtrip_witness :
    Session.get (Session.set sessC6 0 "n" Nat.repr 7) "n" dec7 = some 7 :=
  session_set_get_roundtrip sessC6 0 "n" Nat.repr dec7 7 (by decide)

/-- Claim C7: after `set`, `get_remove` returns the stored value, and a
subsequent `get` of the same key on the same session returns `none`. -/
theorem session_set_getremove_get (s : Session) (now now2 : Nat) (key : String)
    (encode : α → String) (decode : String → Option α) (v : α)
    (h : decode (encode v) = some v) :
    (Session.get_remove (Session.set s now key encode v) now2 key decode).1 = some v ∧
    Session.get (Session.get_remove (Session.set s now key encode v) now2 key decode).2
      key decode = none := by
  constructor
  · simp [Session.get_remove, Session.set, SessionStore.get_remove, SessionStore.set,
      alookup_upsert_self, h]
  · simp [Session.get, Session.get_remove, Session.set, SessionStore.get,
      SessionStore.get_remove, SessionStore.set, entriesOf, alookup_upsert_self,
      alookup_aremove_self]

/-- Witness for C7: after storing 7 under "n", `get_remove` returns 7 and
the following `get` returns `none`. -/
theorem session_set_getremove_get_witness :
    (Session.get_remove (Session.set sessC6 0 "n" Nat.repr 7) 0 "n" dec7).1 = some 7 ∧
    Session.get (Session.get_remove (Session.set sessC6 0 "n" Nat.repr 7) 0 "n" dec7).2
      "n" dec7 = none :=
  session_set_getremove_get sessC6 0 0 "n" Nat.repr dec7 7 (by decide)

/-- Claim C8: with no persistence client, `count` is the number of live
(non-expired, non-pending-destroy) cache entries; with a client configured,
it is the client's count for the configured table. -/
theorem session_count_spec (s : Session) (now : Nat) :
    (s.store.client = none → Session.count s now = liveCount s.store now) ∧
    (∀ client, s.store.client = some client →
      Session.count s now = client.dbCount s.store.config.table_name) := by
  constructor
  · intro h
    simp [Session.count, SessionStore.count_sessions, h]
  · intro client h
    simp [Session.count, SessionStore.count_sessions, h]

/-- Witness for C8: without a client the count is the live-entry count of
the cache (here 1 of 3 entries); with `clientC8` configured it is the
client's table count. -/
theorem session_count_spec_witness :
    (Session.count sessC8a 40 = liveCount sessC8a.store 40 ∧ liveCount sessC8a.store 40 = 1) ∧
    Session.count sessC8b 40 = clientC8.dbCount sessC8b.store.config.table_name :=
  ⟨⟨(session_count_spec sessC8a 40).1 rfl, by decide⟩,
   (session_count_spec sessC8b 40).2 clientC8 rfl⟩

/-- Claim C9: no operation on a `Session` handle changes the handle's own
`id`: in particular `get_session_id` after `renew` still returns the ID
assigned at construction — the fresh ID allocated by `renew` is not
reflected in the existing handle. -/
theorem session_handle_preserves_id (s : Session) (tokens : List Nat) (now : Nat)
    (key : String) (encode : α → String) (v : α) (longterm storable : Bool)
    (decode : String → Option α) :
    Session.get_session_id (Session.renew s tokens) = Session.get_session_id s ∧
    (Session.renew s tokens).id = s.id ∧
    (Session.destroy s).id = s.id ∧
    (Session.set_longterm s now longterm).id = s.id ∧
    (Session.set_store s storable).id = s.id ∧
    (Session.set s now key encode v).id = s.id ∧
    (Session.remove s key).id = s.id ∧
    (Session.clear s).id = s.id ∧
    ((Session.get_remove s now key decode).2).id = s.id :=
  ⟨rfl, rfl, rfl, rfl, rfl, rfl, rfl, rfl, rfl⟩

/-- Claim C10: converting a `Session` into a `ReadOnlySession` preserves
both fields exactly, and the read-only `get` and `count` agree with the
original handle's `get` and `count` on every input. -/
theorem readonly_refines_session (s : Session) (key : String)
    (decode : String → Option α) (now : Nat) :
    (ReadOnlySession.ofSession s).id = s.id ∧
    (ReadOnlySession.ofSession s).store = s.store ∧
    ReadOnlySession.get (ReadOnlySession.ofSession s) key decode = Session.get s key decode ∧
    ReadOnlySession.count (ReadOnlySession.ofSession s) now = Session.count s now :=
  ⟨rfl, rfl, rfl, rfl⟩
